import Mathlib

/-
Verification of the audio-pipeline services in this repository
(src/app.py: the three API-style endpoints; src/oldapp.py: the full
/process-audio pipeline), as a shallow embedding.

External collaborators (the speech-recognition provider, the generative
language provider, the text-to-speech provider, the MP3 decoder) are
black boxes per the spec; each is modelled as an outcome value or an
abstract function supplied to the handler. Temporary-file lifecycle is
modelled as an explicit disk state (the list of paths on disk), threaded
through each handler exactly where the Python code creates and removes
its temporary file.
-/

namespace ESP32API

/-- An audio buffer together with its WAV format descriptor (sample rate,
channel count, sample width in bytes), as in the spec data model. -/
structure WavBuffer where
  sampleRate : Nat
  channels : Nat
  sampleWidth : Nat
  data : List Nat
  deriving DecidableEq, Repr

/-- The body of an HTTP response produced by a handler: one of the JSON
shapes the handlers build, or raw audio bytes, or a transcoded WAV. -/
inductive Body where
  | jsonText : String → Body
  | jsonError : String → Body
  | jsonChat : String → Body
  | raw : List Nat → Body
  | wav : WavBuffer → Body
  deriving DecidableEq, Repr

/-- An HTTP response: status code, media type, body. JSONResponse has
media type "application/json"; the audio Response objects set
"audio/mpeg" (or "audio/wav" in the transcoding variant). -/
structure HttpResponse where
  status : Nat
  mediaType : String
  body : Body
  deriving DecidableEq, Repr

/-- Outcome of one call to the external speech-recognition provider on a
given audio file: recognized text, sr.UnknownValueError (the provider
could not map the audio to any utterance), sr.RequestError (network or
auth failure, carrying its message), or any other exception. -/
inductive SttOutcome where
  | recognized : String → SttOutcome
  | unknownValue : SttOutcome
  | requestError : String → SttOutcome
  | otherError : String → SttOutcome
  deriving DecidableEq, Repr

/-- Outcome of one call to the generative-language provider: a response
object (first component: the value of its text attribute when the object
exposes one, none otherwise; second component: its stringified
representation, Python str of the object), or a raised exception with
its message. -/
inductive GenOutcome where
  | ok : Option String → String → GenOutcome
  | error : String → GenOutcome
  deriving DecidableEq, Repr

/-- Outcome of one call to the text-to-speech provider: MP3 bytes, or a
raised exception with its message. -/
inductive TtsOutcome where
  | ok : List Nat → TtsOutcome
  | error : String → TtsOutcome
  deriving DecidableEq, Repr

/-- Embeds getattr applied to the response, its text attribute and the
default str of the response (src/app.py line 116, src/oldapp.py line
40): the text attribute when the object exposes one, otherwise the
stringified representation of the whole response object. -/
def extract_text : Option String → String → String
  | some t, _ => t
  | none, reprStr => reprStr

/-- Embedding of the handler for POST /v1/audio/transcriptions
(src/app.py, speech_to_text). disk0 is the set of files on disk before
the request; fresh is the name tempfile.NamedTemporaryFile picks (always
a path not already on disk). fileBytes is the uploaded file content and
model the form field (the code never reads either: the file bytes are
consumed only through the recognizer, abstracted by stt). readErr models
an exception raised while reading the upload (caught by the generic
except clause); stt models the recognize_google call. Returns the
response and the disk state after the finally clause, which removes the
temporary file when it exists. -/
def speech_to_text (disk0 : List String) (fresh : String)
    (fileBytes : List Nat) (model : String)
    (readErr : Option String) (stt : SttOutcome) :
    HttpResponse × List String :=
  let disk1 := disk0 ++ [fresh]
  let resp : HttpResponse :=
    match readErr with
    | some e => ⟨500, "application/json", Body.jsonError ("Internal Server Error: " ++ e)⟩
    | none =>
      match stt with
      | SttOutcome.recognized t => ⟨200, "application/json", Body.jsonText t⟩
      | SttOutcome.unknownValue =>
          ⟨400, "application/json", Body.jsonError "Speech could not be understood."⟩
      | SttOutcome.requestError e =>
          ⟨500, "application/json", Body.jsonError ("Speech recognition API error: " ++ e)⟩
      | SttOutcome.otherError e =>
          ⟨500, "application/json", Body.jsonError ("Internal Server Error: " ++ e)⟩
  let disk2 := if fresh ∈ disk1 then disk1.erase fresh else disk1
  (resp, disk2)

/-- Embedding of the handler for POST /process-audio (src/oldapp.py,
process_audio). prompt is the form field (default "You are a helpful
assistant."); stt models recognize_google on the uploaded audio;
generate models client.models.generate_content as a function of the
prompt string actually submitted; synthesize models gTTS as a function
of the text spoken. The disk state is threaded as in speech_to_text:
the temporary WAV file is created, then removed by the finally clause
on every exit path. -/
def process_audio (disk0 : List String) (fresh : String)
    (audioBytes : List Nat) (prompt : String) (stt : SttOutcome)
    (generate : String → GenOutcome) (synthesize : String → TtsOutcome) :
    HttpResponse × List String :=
  let disk1 := disk0 ++ [fresh]
  let resp : HttpResponse :=
    match stt with
    | SttOutcome.unknownValue =>
        ⟨400, "application/json", Body.jsonError "Speech could not be understood."⟩
    | SttOutcome.requestError e =>
        ⟨500, "application/json", Body.jsonError ("Speech recognition API error: " ++ e)⟩
    | SttOutcome.otherError e =>
        ⟨500, "application/json", Body.jsonError ("Internal Server Error: " ++ e)⟩
    | SttOutcome.recognized text_input =>
      match generate (prompt ++ "\nUser said: " ++ text_input) with
      | GenOutcome.error e =>
          ⟨500, "application/json", Body.jsonError ("Internal Server Error: " ++ e)⟩
      | GenOutcome.ok t? reprStr =>
        match synthesize (extract_text t? reprStr) with
        | TtsOutcome.error e =>
            ⟨500, "application/json", Body.jsonError ("Internal Server Error: " ++ e)⟩
        | TtsOutcome.ok mp3 => ⟨200, "audio/mpeg", Body.raw mp3⟩
  let disk2 := if fresh ∈ disk1 then disk1.erase fresh else disk1
  (resp, disk2)

/-- A chat message of the /v1/chat/completions payload. -/
structure ChatMessage where
  role : String
  content : String
  deriving DecidableEq, Repr

/-- The default system persona (src/app.py line 94, src/oldapp.py
prompt form default). -/
def default_system_prompt : String := "You are a helpful assistant."

/-- Embeds the loop of src/app.py lines 94 to 98: the content of the
first message whose role is "system", else the default persona. -/
def extract_system_prompt (messages : List ChatMessage) : String :=
  match messages.find? (fun m => m.role == "system") with
  | some m => m.content
  | none => default_system_prompt

/-- Embeds src/app.py lines 101 to 103: the content of the last message
when the list is nonempty and that message's role is "user", else the
fixed placeholder. -/
def extract_user_prompt (messages : List ChatMessage) : String :=
  match messages.getLast? with
  | some m => if m.role == "user" then m.content else "No user message found."
  | none => "No user message found."

/-- Embeds src/app.py line 107: the prompt string submitted to the
generative-language provider. -/
def full_prompt (messages : List ChatMessage) : String :=
  extract_system_prompt messages ++ "\n\nUser: " ++ extract_user_prompt messages

/-- Result of the chat handler: the response and the prompt string
submitted to the provider (none would mean no provider call was made;
the handler always calls the provider). -/
structure ChatResult where
  response : HttpResponse
  promptSent : Option String
  deriving DecidableEq, Repr

/-- Embedding of the handler for POST /v1/chat/completions (src/app.py,
chat_completions). generate models client.models.generate_content as a
function of the submitted prompt; an exception anywhere in the try block
is answered with a JSON 500 whose error field is the exception text. -/
def chat_completions (messages : List ChatMessage)
    (generate : String → GenOutcome) : ChatResult :=
  let p := full_prompt messages
  match generate p with
  | GenOutcome.ok t? reprStr =>
      ⟨⟨200, "application/json", Body.jsonChat (extract_text t? reprStr)⟩, some p⟩
  | GenOutcome.error e => ⟨⟨500, "application/json", Body.jsonError e⟩, some p⟩

/-- Embedding of the handler for POST /v1/audio/speech (src/app.py,
text_to_speech). voice is the payload field the code never reads;
synthesize models gTTS on the input text. On success the MP3 bytes are
returned as audio/mpeg; on exception a JSON 500. -/
def text_to_speech (input : String) (voice : String)
    (synthesize : String → TtsOutcome) : HttpResponse :=
  match synthesize input with
  | TtsOutcome.ok mp3 => ⟨200, "audio/mpeg", Body.raw mp3⟩
  | TtsOutcome.error e => ⟨500, "application/json", Body.jsonError e⟩

/-- Modelled from the spec: the minimum PCM payload length of the
raw-PCM full-pipeline endpoints, which are not under src/. Spec 4.1:
sampleRate * bytesPerSample * 0.5 at the declared 16000 Hz and 2 bytes
per sample. -/
def min_pcm_bytes : Nat := 16000 * 2 / 2

/-- Result of one run of the raw-PCM pipeline: the response and the
number of external provider calls made while handling the request. -/
structure PcmRun where
  response : HttpResponse
  providerCalls : Nat
  deriving DecidableEq, Repr

/-- Modelled from the spec: the raw-PCM full-pipeline endpoint (spec 4.1
and 6.1, the /upload and / handlers taking a raw PCM16 body), which is
not under src/ (src/oldapp.py's /process-audio takes a multipart upload
and performs no length check). A payload shorter than min_pcm_bytes is
rejected with request_too_short before any external call; otherwise the
bytes are wrapped as canonical WAV and the three-stage pipeline of
src/oldapp.py runs, counting one provider call per stage reached. -/
def process_pcm (pcmBytes : List Nat) (stt : SttOutcome)
    (generate : String → GenOutcome) (synthesize : String → TtsOutcome) : PcmRun :=
  if pcmBytes.length < min_pcm_bytes then
    ⟨⟨400, "application/json", Body.jsonError "request_too_short"⟩, 0⟩
  else
    match stt with
    | SttOutcome.unknownValue =>
        ⟨⟨400, "application/json", Body.jsonError "Speech could not be understood."⟩, 1⟩
    | SttOutcome.requestError e =>
        ⟨⟨500, "application/json", Body.jsonError ("Speech recognition API error: " ++ e)⟩, 1⟩
    | SttOutcome.otherError e =>
        ⟨⟨500, "application/json", Body.jsonError ("Internal Server Error: " ++ e)⟩, 1⟩
    | SttOutcome.recognized t =>
      match generate (default_system_prompt ++ "\nUser said: " ++ t) with
      | GenOutcome.error e =>
          ⟨⟨500, "application/json", Body.jsonError ("Internal Server Error: " ++ e)⟩, 2⟩
      | GenOutcome.ok t? reprStr =>
        match synthesize (extract_text t? reprStr) with
        | TtsOutcome.error e =>
            ⟨⟨500, "application/json", Body.jsonError ("Internal Server Error: " ++ e)⟩, 3⟩
        | TtsOutcome.ok mp3 => ⟨⟨200, "audio/mpeg", Body.raw mp3⟩, 3⟩

/-- The fixed placeholder sentence of the permissive STT policy
(spec 4.2). -/
def fallback_sentence : String := "Sorry, I could not understand that."

/-- The user text the permissive pipeline submits to reply generation:
the recognized text on STT success, the fixed placeholder on any STT
failure (spec 4.2: all three failure kinds are non-fatal). -/
def permissive_user_text : SttOutcome → String
  | SttOutcome.recognized t => t
  | _ => fallback_sentence

/-- Terminal state of the pipeline orchestrator (spec 4.5): Responded on
success, or Failed with the stage and reason. -/
inductive PipelineState where
  | responded : PipelineState
  | failed : String → String → PipelineState
  deriving DecidableEq, Repr

/-- Result of one run of the permissive full pipeline: the response, the
user text placed in the prompt, and the terminal state reached. -/
structure PermissiveRun where
  response : HttpResponse
  userText : String
  finalState : PipelineState
  deriving DecidableEq, Repr

/-- Modelled from the spec: the permissive-policy full-pipeline variant
(spec 4.2 and 4.5), which is not under src/ (src/oldapp.py's
/process-audio implements the strict policy: it answers STT failures
with a JSON error and never substitutes the placeholder). Any STT
failure is non-fatal: the user text becomes the fixed fallback sentence
and processing continues through reply generation and synthesis; a
generation or synthesis failure is fatal and reaches the Failed state
with a typed reason. -/
def process_audio_permissive (stt : SttOutcome)
    (generate : String → GenOutcome) (synthesize : String → TtsOutcome) :
    PermissiveRun :=
  let text_input := permissive_user_text stt
  match generate (default_system_prompt ++ "\nUser said: " ++ text_input) with
  | GenOutcome.error e =>
      ⟨⟨500, "application/json", Body.jsonError e⟩, text_input,
        PipelineState.failed "generation" e⟩
  | GenOutcome.ok t? reprStr =>
    match synthesize (extract_text t? reprStr) with
    | TtsOutcome.error e =>
        ⟨⟨500, "application/json", Body.jsonError e⟩, text_input,
          PipelineState.failed "synthesis" e⟩
    | TtsOutcome.ok mp3 =>
        ⟨⟨200, "audio/mpeg", Body.raw mp3⟩, text_input, PipelineState.responded⟩

/-- Modelled from the spec: the WAV-mode TTS endpoint (spec 4.4 mode b
and 8), which is not under src/ (both src endpoints return the
provider's MP3 bytes as audio/mpeg unchanged). decodeMp3 is the external
audio transcoder (spec 6.2) producing the PCM samples; the handler
re-encodes them to the canonical mono, 16000 Hz, 16-bit profile and
answers with media type audio/wav. -/
def text_to_speech_wav (decodeMp3 : List Nat → List Nat) (input : String)
    (synthesize : String → TtsOutcome) : HttpResponse :=
  match synthesize input with
  | TtsOutcome.error e => ⟨500, "application/json", Body.jsonError e⟩
  | TtsOutcome.ok mp3 =>
      ⟨200, "audio/wav", Body.wav ⟨16000, 1, 2, decodeMp3 mp3⟩⟩

/-- Helper: the finally-clause cleanup restores the disk to its
pre-request state whenever the temporary path was fresh. -/
theorem temp_cleanup_restores_disk (disk0 : List String) (fresh : String)
    (h : fresh ∉ disk0) :
    (if fresh ∈ disk0 ++ [fresh] then (disk0 ++ [fresh]).erase fresh
     else disk0 ++ [fresh]) = disk0 := by
  rw [if_pos (List.mem_append_right disk0 (List.mem_singleton_self fresh))]
  rw [List.erase_append_right _ h, List.erase_cons_head, List.append_nil]

/-- C1: for every inbound PCM payload shorter than 16000 bytes (the
bytes implied by 0.5 seconds at 16 kHz, 16-bit, mono), the raw-PCM
pipeline rejects the request with a request_too_short condition and
makes zero external provider calls, whatever the providers would have
answered. -/
theorem C1_short_pcm_rejected_before_provider_call
    (pcmBytes : List Nat) (stt : SttOutcome)
    (generate : String → GenOutcome) (synthesize : String → TtsOutcome)
    (h : pcmBytes.length < 16000) :
    process_pcm pcmBytes stt generate synthesize =
      ⟨⟨400, "application/json", Body.jsonError "request_too_short"⟩, 0⟩ ∧
    min_pcm_bytes = 16000 := by
  constructor
  · unfold process_pcm
    rw [if_pos (by simpa [min_pcm_bytes] using h)]
  · rfl

/-- C1 witness: the empty payload (length 0, shorter than 16000) is
rejected with request_too_short and zero provider calls. -/
theorem C1_short_pcm_rejected_witness :
    process_pcm [] SttOutcome.unknownValue
        (fun _ => GenOutcome.error "boom") (fun _ => TtsOutcome.error "boom") =
      ⟨⟨400, "application/json", Body.jsonError "request_too_short"⟩, 0⟩ ∧
    min_pcm_bytes = 16000 :=
  C1_short_pcm_rejected_before_provider_call [] SttOutcome.unknownValue
    (fun _ => GenOutcome.error "boom") (fun _ => TtsOutcome.error "boom")
    (by decide)

/-- C2: on every exit path of both temporary-file-creating handlers,
every success, STT failure, read failure, generation failure or
synthesis failure, the temporary file created while handling the
request is removed before the response is returned: the disk returns to
exactly its pre-request state. -/
theorem C2_temp_files_removed_on_every_exit
    (disk0 : List String) (fresh : String) (h : fresh ∉ disk0)
    (fileBytes audioBytes : List Nat) (model prompt : String)
    (readErr : Option String) (stt : SttOutcome)
    (generate : String → GenOutcome) (synthesize : String → TtsOutcome) :
    (speech_to_text disk0 fresh fileBytes model readErr stt).2 = disk0 ∧
    (process_audio disk0 fresh audioBytes prompt stt generate synthesize).2 = disk0 :=
  ⟨temp_cleanup_restores_disk disk0 fresh h,
   temp_cleanup_restores_disk disk0 fresh h⟩

/-- C2 witness: a concrete request against both handlers on an empty
disk leaves the disk empty. -/
theorem C2_temp_files_removed_witness :
    (speech_to_text [] "tmp.wav" [1, 2] "whisper-1" none
        SttOutcome.unknownValue).2 = [] ∧
    (process_audio [] "tmp.wav" [1, 2] "You are a helpful assistant."
        (SttOutcome.recognized "hi")
        (fun _ => GenOutcome.ok (some "hello") "resp")
        (fun _ => TtsOutcome.ok [3, 4])).2 = [] :=
  C2_temp_files_removed_on_every_exit [] "tmp.wav" (by simp)
    [1, 2] [1, 2] "whisper-1" "You are a helpful assistant." none
    (SttOutcome.recognized "hi")
    (fun _ => GenOutcome.ok (some "hello") "resp")
    (fun _ => TtsOutcome.ok [3, 4])

/-- C3: every generation-provider or synthesis failure halts the
pipeline with a status-500 JSON error body: the chat endpoint and the
TTS endpoint answer a raised exception with JSON 500, and the full
pipeline answers a generation or synthesis exception with JSON 500;
none of these responses carries an audio media type or audio bytes. -/
theorem C3_generation_and_synthesis_failures_halt_with_json_500
    (e t prompt input voice : String) (messages : List ChatMessage)
    (disk0 : List String) (fresh : String) (audioBytes : List Nat)
    (t? : Option String) (reprStr : String)
    (synthesize : String → TtsOutcome) :
    (chat_completions messages (fun _ => GenOutcome.error e)).response =
      ⟨500, "application/json", Body.jsonError e⟩ ∧
    text_to_speech input voice (fun _ => TtsOutcome.error e) =
      ⟨500, "application/json", Body.jsonError e⟩ ∧
    (process_audio disk0 fresh audioBytes prompt (SttOutcome.recognized t)
        (fun _ => GenOutcome.error e) synthesize).1 =
      ⟨500, "application/json", Body.jsonError ("Internal Server Error: " ++ e)⟩ ∧
    (process_audio disk0 fresh audioBytes prompt (SttOutcome.recognized t)
        (fun _ => GenOutcome.ok t? reprStr) (fun _ => TtsOutcome.error e)).1 =
      ⟨500, "application/json", Body.jsonError ("Internal Server Error: " ++ e)⟩ :=
  ⟨rfl, rfl, rfl, rfl⟩

/-- Helper: whatever the downstream providers answer, the user text of a
permissive run is determined by the STT outcome alone. -/
theorem process_audio_permissive_userText (stt : SttOutcome)
    (generate : String → GenOutcome) (synthesize : String → TtsOutcome) :
    (process_audio_permissive stt generate synthesize).userText =
      permissive_user_text stt := by
  simp only [process_audio_permissive]
  cases hg : generate (default_system_prompt ++ "\nUser said: " ++
      permissive_user_text stt) with
  | error e => rfl
  | ok a b =>
    cases hs : synthesize (extract_text a b) <;> simp [hs]

/-- C4: under the permissive STT policy, an unintelligible transcription
does not halt the pipeline: the user text placed in the prompt is the
fixed fallback sentence whatever the downstream providers do, and when
generation and synthesis succeed the run terminates in the Responded
state with the synthesized audio. -/
theorem C4_permissive_unintelligible_continues_with_fallback
    (t? : Option String) (reprStr : String) (mp3 : List Nat)
    (generate : String → GenOutcome) (synthesize : String → TtsOutcome) :
    (process_audio_permissive SttOutcome.unknownValue generate synthesize).userText =
      fallback_sentence ∧
    process_audio_permissive SttOutcome.unknownValue
        (fun _ => GenOutcome.ok t? reprStr) (fun _ => TtsOutcome.ok mp3) =
      ⟨⟨200, "audio/mpeg", Body.raw mp3⟩, fallback_sentence,
        PipelineState.responded⟩ :=
  ⟨process_audio_permissive_userText SttOutcome.unknownValue generate synthesize,
   rfl⟩

/-- Helper: the chat handler always submits exactly the built prompt to
the generation provider, whatever the provider answers. -/
theorem chat_completions_promptSent (messages : List ChatMessage)
    (generate : String → GenOutcome) :
    (chat_completions messages generate).promptSent =
      some (full_prompt messages) := by
  simp only [chat_completions]
  cases hg : generate (full_prompt messages) with
  | ok a b => rfl
  | error e => rfl

/-- C5: for the payload whose messages are the system message "Be
terse." followed by the user message "Hi", the prompt the chat endpoint
submits to the generative-language provider is exactly
"Be terse.\n\nUser: Hi", whatever the provider then answers. -/
theorem C5_prompt_built_exactly (generate : String → GenOutcome) :
    full_prompt [⟨"system", "Be terse."⟩, ⟨"user", "Hi"⟩] =
      "Be terse.\n\nUser: Hi" ∧
    (chat_completions [⟨"system", "Be terse."⟩, ⟨"user", "Hi"⟩]
        generate).promptSent = some "Be terse.\n\nUser: Hi" := by
  have h : full_prompt [⟨"system", "Be terse."⟩, ⟨"user", "Hi"⟩] =
      "Be terse.\n\nUser: Hi" := by decide
  exact ⟨h, by rw [chat_completions_promptSent, h]⟩

/-- C6: the transcription endpoint answers recognized text with a JSON
text body and status 200, an unintelligible utterance with JSON 400, a
provider network or auth failure with JSON 500, and any other exception
with JSON 500. -/
theorem C6_transcription_outcome_mapping
    (disk0 : List String) (fresh t e : String)
    (fileBytes : List Nat) (model : String) :
    (speech_to_text disk0 fresh fileBytes model none (SttOutcome.recognized t)).1 =
      ⟨200, "application/json", Body.jsonText t⟩ ∧
    (speech_to_text disk0 fresh fileBytes model none SttOutcome.unknownValue).1 =
      ⟨400, "application/json", Body.jsonError "Speech could not be understood."⟩ ∧
    (speech_to_text disk0 fresh fileBytes model none (SttOutcome.requestError e)).1 =
      ⟨500, "application/json", Body.jsonError ("Speech recognition API error: " ++ e)⟩ ∧
    (speech_to_text disk0 fresh fileBytes model none (SttOutcome.otherError e)).1 =
      ⟨500, "application/json", Body.jsonError ("Internal Server Error: " ++ e)⟩ :=
  ⟨rfl, rfl, rfl, rfl⟩

/-- C7: when the generation-provider response object exposes no text
attribute, the reply generator does not fail: the extracted reply is the
stringified representation of the whole response object, and the chat
endpoint returns it with status 200. -/
theorem C7_missing_text_attribute_falls_back_to_repr
    (reprStr : String) (messages : List ChatMessage) :
    extract_text none reprStr = reprStr ∧
    (chat_completions messages (fun _ => GenOutcome.ok none reprStr)).response =
      ⟨200, "application/json", Body.jsonChat reprStr⟩ :=
  ⟨rfl, rfl⟩

/-- C8: a successful WAV-mode TTS request for the input "Hello" answers
with media type audio/wav carrying the decoded provider MP3 re-encoded
to the canonical profile: sample rate 16000, 1 channel, 2-byte sample
width. -/
theorem C8_wav_mode_tts_canonical_profile
    (decodeMp3 : List Nat → List Nat) (mp3 : List Nat) :
    text_to_speech_wav decodeMp3 "Hello" (fun _ => TtsOutcome.ok mp3) =
      ⟨200, "audio/wav", Body.wav ⟨16000, 1, 2, decodeMp3 mp3⟩⟩ :=
  rfl

/-- C9: the model form field of the transcription endpoint is ignored:
two requests identical except for the model value produce identical
responses and identical disk states. -/
theorem C9_model_field_noninterference
    (disk0 : List String) (fresh : String) (fileBytes : List Nat)
    (model1 model2 : String) (readErr : Option String) (stt : SttOutcome) :
    speech_to_text disk0 fresh fileBytes model1 readErr stt =
      speech_to_text disk0 fresh fileBytes model2 readErr stt :=
  rfl

/-- C10: the chat endpoint places the placeholder "No user message
found." in the prompt when the messages list is empty or its last
message's role is not "user", and uses the last message's content
exactly when that role is "user". -/
theorem C10_user_prompt_selection
    (messages : List ChatMessage) (m : ChatMessage) :
    extract_user_prompt [] = "No user message found." ∧
    (m.role = "user" → extract_user_prompt (messages ++ [m]) = m.content) ∧
    (m.role ≠ "user" →
      extract_user_prompt (messages ++ [m]) = "No user message found.") := by
  refine ⟨rfl, ?_, ?_⟩ <;> intro h <;>
    simp [extract_user_prompt, List.getLast?_concat, h]

/-- C10 witness: with a trailing user message the content is taken; with
a trailing assistant message the placeholder is used. -/
theorem C10_user_prompt_selection_witness :
    extract_user_prompt ([⟨"system", "s"⟩] ++ [⟨"user", "Hi"⟩]) = "Hi" ∧
    extract_user_prompt ([] ++ [(⟨"assistant", "x"⟩ : ChatMessage)]) =
      "No user message found." :=
  ⟨(C10_user_prompt_selection [⟨"system", "s"⟩] ⟨"user", "Hi"⟩).2.1 rfl,
   (C10_user_prompt_selection [] ⟨"assistant", "x"⟩).2.2 (by decide)⟩

end ESP32API
